import Mathlib

/-!
Verification of the dialogue state and information-sufficiency engine of the
WhatsApp bankruptcy-consultation bot (files `data_extractor.py`,
`question_prioritizer.py`, `simple_api.py`).

The per-conversation context is a Python dict mapping field names to values of
the fixed vocabulary (number, boolean, string enum, or None); it is embedded as
an association list with unique keys.  Confidence scores are exact rationals
(the Python floats 0.5, 0.8, 0.9, ... used by the code are all exactly
representable).  The external LLM and RAG collaborators are inputs: the
extraction result that `extract_data` returned is a parameter of the turn
function, and the free-text generators (`process_query`,
`generate_greeting`, `generate_transition`) are function parameters.
-/

/-- A context value: one of the scalar value kinds the extraction schema uses
(`vNull` embeds Python `None` stored under a present key). -/
inductive Value where
  | vNull : Value
  | vBool : Bool → Value
  | vInt : Int → Value
  | vStr : String → Value
deriving DecidableEq, Repr

/-- A conversation context: a Python dict embedded as an association list with
unique keys (insertion order preserved, as in Python). -/
abbrev Ctx := List (String × Value)

/-- Association-list lookup: the value stored under key `k`, i.e. Python
`d[k]` / `d.get(k)`. -/
def alookup {β : Type} : List (String × β) → String → Option β
  | [], _ => none
  | p :: rest, k => if p.1 = k then some p.2 else alookup rest k

/-- Python dict assignment `d[k] = v`: replace the value at an existing key in
place, otherwise append the new pair. -/
def ctxSet : Ctx → String → Value → Ctx
  | [], k, v => [(k, v)]
  | p :: rest, k, v => if p.1 = k then (k, v) :: rest else p :: ctxSet rest k v

/-- Python `del d[k]` (on a dict without duplicate keys). -/
def ctxRemove : Ctx → String → Ctx
  | [], _ => []
  | p :: rest, k => if p.1 = k then ctxRemove rest k else p :: ctxRemove rest k

/-- The extraction dict returned by `DataExtractor.extract_data`: the
`extracted_data` mapping, the per-field `confidence` mapping, and the `intent`
tag (absent key embedded as `none`). -/
structure ExtractionResult where
  extracted_data : List (String × Value)
  confidence : List (String × ℚ)
  intent : Option String
deriving DecidableEq, Repr

/-- One iteration of the loop in `DataExtractor.merge_context`: skip `None`
values; otherwise overwrite when `confidence.get(key, 0.8) > 0.5` or the key is
not yet in the accumulated dict. -/
def mergeStep (confidence : List (String × ℚ)) (merged : Ctx) (kv : String × Value) : Ctx :=
  if kv.2 ≠ Value.vNull then
    if (alookup confidence kv.1).getD (mkRat 8 10) > mkRat 5 10 ∨ alookup merged kv.1 = none then
      ctxSet merged kv.1 kv.2
    else merged
  else merged

/-- `DataExtractor.merge_context(existing_context, new_extraction)`. -/
def merge_context (existing_context : Ctx) (new_extraction : ExtractionResult) : Ctx :=
  new_extraction.extracted_data.foldl (mergeStep new_extraction.confidence) existing_context

/-- The effective confidence `merge_context` uses for a field:
`confidence.get(key, 0.8)`. -/
def conf_of (E : ExtractionResult) (k : String) : ℚ :=
  (alookup E.confidence k).getD (mkRat 8 10)

/-- The per-field test of `QuestionPrioritizer._get_missing_critical_fields`:
`field not in context or context[field] is None`. -/
def is_missing (context : Ctx) (field : String) : Bool :=
  match alookup context field with
  | none => true
  | some v => v == Value.vNull

/-- The `QuestionPrioritizer.required_fields` dict. -/
def required_fields_table : List (String × List String) :=
  [("eligibility_check", ["debtAmount", "hasOverdue12Months", "monthlyIncome"]),
   ("how_to_start", ["debtAmount", "hasOverdue12Months", "employmentType", "hasProperty"]),
   ("documentation", ["employmentType"]),
   ("consequences", ["hasProperty", "hasCar"]),
   ("specific_problem", [])]

/-- `self.required_fields.get(intent, [])`. -/
def required_fields (intent : String) : List String :=
  (alookup required_fields_table intent).getD []

/-- `QuestionPrioritizer._get_missing_critical_fields(context, intent)`. -/
def get_missing_critical_fields (context : Ctx) (intent : String) : List String :=
  (required_fields intent).filter (fun field => is_missing context field)

/-- `QuestionPrioritizer.has_sufficient_info(context, intent)`:
`len(missing) == 0`. -/
def has_sufficient_info (context : Ctx) (intent : String) : Bool :=
  (get_missing_critical_fields context intent).length == 0

/-- One entry of the `question_templates` catalog. -/
structure QuestionTemplate where
  question : String
  field : String
  priority : Nat
  required_for : List String
deriving DecidableEq, Repr

def debt_amount_template : QuestionTemplate :=
  { question := "Какая у вас общая сумма задолженности?"
    field := "debtAmount"
    priority := 1
    required_for := ["eligibility_check", "how_to_start"] }

def overdue_check_template : QuestionTemplate :=
  { question := "Есть ли у вас просрочки по кредитам более 12 месяцев?"
    field := "hasOverdue12Months"
    priority := 2
    required_for := ["eligibility_check", "how_to_start"] }

def monthly_income_template : QuestionTemplate :=
  { question := "Какой у вас ежемесячный доход?"
    field := "monthlyIncome"
    priority := 3
    required_for := ["eligibility_check"] }

def employment_type_template : QuestionTemplate :=
  { question := "Вы работаете официально или неофициально? (госслужба/частная компания/ИП/пенсионер)"
    field := "employmentType"
    priority := 4
    required_for := ["eligibility_check", "how_to_start"] }

def property_check_template : QuestionTemplate :=
  { question := "Есть ли у вас недвижимость в собственности (квартира, дом, доля)?"
    field := "hasProperty"
    priority := 5
    required_for := ["eligibility_check", "how_to_start"] }

def car_check_template : QuestionTemplate :=
  { question := "Есть ли у вас автомобиль в собственности?"
    field := "hasCar"
    priority := 6
    required_for := ["eligibility_check"] }

def collateral_check_template : QuestionTemplate :=
  { question := "Есть ли у вас залоговое имущество (ипотека, автокредит)?"
    field := "hasCollateral"
    priority := 7
    required_for := ["how_to_start"] }

def creditors_count_template : QuestionTemplate :=
  { question := "Сколько у вас кредиторов (банков, МФО)?"
    field := "creditorsCount"
    priority := 8
    required_for := ["how_to_start"] }

/-- The `self.question_templates` dict of `QuestionPrioritizer.__init__`, in
declaration (= iteration) order. -/
def question_templates : List (String × QuestionTemplate) :=
  [("debt_amount", debt_amount_template),
   ("overdue_check", overdue_check_template),
   ("monthly_income", monthly_income_template),
   ("employment_type", employment_type_template),
   ("property_check", property_check_template),
   ("car_check", car_check_template),
   ("collateral_check", collateral_check_template),
   ("creditors_count", creditors_count_template)]

/-- `priority < best_priority` where `best_priority` starts at `float(\x27inf\x27)`:
`none` plays the role of infinity. -/
def lt_best (p : Nat) : Option Nat → Prop
  | none => True
  | some b => p < b

instance lt_best_decidable (p : Nat) (o : Option Nat) : Decidable (lt_best p o) :=
  match o with
  | none => isTrue trivial
  | some b => Nat.decLt p b

/-- The body of the selection loop in `QuestionPrioritizer.get_next_question`:
keep the best (lowest-priority) qualifying template seen so far. -/
def better_question (missing_fields : List String) (intent : String)
    (acc : Option QuestionTemplate × Option Nat) (kv : String × QuestionTemplate) :
    Option QuestionTemplate × Option Nat :=
  if kv.2.field ∈ missing_fields ∧
      (kv.2.required_for = [] ∨ intent ∈ kv.2.required_for) ∧
      lt_best kv.2.priority acc.2
  then (some kv.2, some kv.2.priority)
  else acc

/-- `QuestionPrioritizer.get_next_question(context, intent)`. -/
def get_next_question (context : Ctx) (intent : String) : Option QuestionTemplate :=
  let missing_fields := get_missing_critical_fields context intent
  if missing_fields.isEmpty then none
  else (question_templates.foldl (better_question missing_fields intent) (none, none)).1

/-- The result dict of `QuestionPrioritizer.analyze_completion_status`. -/
structure CompletionStatus where
  has_sufficient_info : Bool
  missing_critical : List String
  completion_percentage : ℚ
  required_total : Nat
  filled_count : Nat
  next_phase : String
deriving DecidableEq, Repr

/-- `QuestionPrioritizer.analyze_completion_status(context, intent)` (the float
percentage is embedded as an exact rational). -/
def analyze_completion_status (context : Ctx) (intent : String) : CompletionStatus :=
  let missing_critical := get_missing_critical_fields context intent
  let has_sufficient := missing_critical.length == 0
  let required := required_fields intent
  let filled := required.length - missing_critical.length
  { has_sufficient_info := has_sufficient
    missing_critical := missing_critical
    completion_percentage :=
      if required.isEmpty then 100 else ((filled : ℚ) / (required.length : ℚ)) * 100
    required_total := required.length
    filled_count := filled
    next_phase := if has_sufficient then "complete" else "collecting" }

/-- Python `str.lower()` on one character, for the alphabets the bot's
messages and keyword tables use: folds ASCII A-Z and Cyrillic А-Я and Ё the
way CPython's `.lower()` does (other scripts' case pairs are outside the
data this program handles). -/
def pyCharLower (c : Char) : Char :=
  if 65 ≤ c.toNat ∧ c.toNat ≤ 90 then Char.ofNat (c.toNat + 32)
  else if 1040 ≤ c.toNat ∧ c.toNat ≤ 1071 then Char.ofNat (c.toNat + 32)
  else if c.toNat = 1025 then Char.ofNat 1105
  else c

/-- Python `s.lower()`. -/
def pyLower (s : String) : String :=
  String.mk (s.toList.map pyCharLower)

/-- Python substring test `pat in s`. -/
def pyContains (s pat : String) : Bool :=
  (List.range (s.toList.length + 1)).any (fun i => pat.toList.isPrefixOf (s.toList.drop i))

/-- The keyword table of `_is_followup_question` in `simple_api.py`. -/
def followup_patterns : List String :=
  ["что дальше", "что потом", "что после", "после банкротства",
   "что делать дальше", "что делать потом", "что делать после",
   "следующий шаг", "дальнейшие действия", "план действий",
   "куда обращаться", "где получить помощь", "нужна консультация",
   "хочу консультацию", "помогите", "посоветуйте"]

/-- `_is_followup_question(message)` from `simple_api.py`. -/
def is_followup_question (message : String) : Bool :=
  let message_lower := pyLower message
  followup_patterns.any (fun pattern => pyContains message_lower pattern)

/-- Python truthiness of a stored context value. -/
def isTruthy : Value → Bool
  | Value.vNull => false
  | Value.vBool b => b
  | Value.vInt n => decide (n ≠ 0)
  | Value.vStr s => decide (s ≠ "")

/-- `DialogueGenerator.should_use_greeting(session_state, context)`; the
defaults `[]` and `\x7b\x7d` of the two `get` calls are falsy. -/
def should_use_greeting (session_state : String) (context : Ctx) : Bool :=
  session_state == "initial"
  && !((alookup context "questionsAsked").elim false isTruthy)
  && !((alookup context "answersReceived").elim false isTruthy)

/-- `_handle_followup_question(message, context)` from `simple_api.py`,
returning the response text and the `offer_products` flag.  The locals
`employment_type` and `has_property` are read but unused in the source.  The
guard `debt_amount and debt_amount > 1000000` is truthiness plus an integer
comparison (a truthy non-numeric stored value would raise in Python; such
contexts are outside the extraction schema and are not modelled). -/
def handle_followup_question (message : String) (context : Ctx) : String × Bool :=
  let message_lower := pyLower message
  let debt_big : Bool :=
    match alookup context "debtAmount" with
    | some (Value.vInt n) => decide (n ≠ 0) && decide (n > 1000000)
    | _ => false
  let parts1 : List String :=
    if ["что дальше", "что потом", "план действий"].any (fun w => pyContains message_lower w) then
      ["Теперь, когда вы понимаете свою ситуацию с банкротством, рекомендую следующие шаги:"]
      ++ (if debt_big then ["\n🎯 Учитывая значительную сумму долга, важно действовать по четкому плану."] else [])
      ++ ["\n📋 Рекомендованный план действий:",
          "1️⃣ Получите персональную консультацию юриста",
          "2️⃣ Изучите процедуру банкротства подробнее",
          "3️⃣ Подготовьте необходимые документы"]
    else if ["консультация", "помощь", "посоветуйте"].any (fun w => pyContains message_lower w) then
      ["Я готов помочь вам с дальнейшими шагами!",
       "\n📞 Для персонального плана действий рекомендую:"]
    else
      ["Отлично! Теперь можно переходить к практическим шагам."]
  let parts2 : List String :=
    ["\n" ++ String.mk (List.replicate 40 '='),
     "🎁 СПЕЦИАЛЬНЫЕ ПРЕДЛОЖЕНИЯ:",
     "",
     "✅ БЕСПЛАТНАЯ консультация",
     "   → Персональный разбор вашей ситуации",
     "   → План действий на 30 дней",
     "",
     "📚 Полный курс по банкротству",
     "   → Пошаговые инструкции",
     "   → Образцы документов",
     "   → Поддержка экспертов",
     "",
     "📖 Учебник по банкротству в Казахстане",
     "   → Все законы и процедуры",
     "   → Реальные кейсы",
     "   → Актуальная информация 2024"]
  (String.join (parts1 ++ parts2), true)

/-- The body of the `/chat` request model of `simple_api.py`. -/
structure ChatRequest where
  message : String
  context : Ctx
  session_state : String
deriving DecidableEq, Repr

/-- The `completion_status` payload: the three dict shapes the endpoint
returns (an `analyze_completion_status` result, the literal follow-up dict
`\x7b"has_sufficient_info": True, "offering_products": True\x7d`, or the error
dict `\x7b"has_sufficient_info": False, "error": str(e)\x7d`). -/
inductive CompletionInfo where
  | analysis : CompletionStatus → CompletionInfo
  | offeringProducts : CompletionInfo
  | errorInfo : String → CompletionInfo
deriving DecidableEq, Repr

/-- The `ChatResponse` model of `simple_api.py`. -/
structure ChatResponse where
  response : String
  session_state : String
  context_updates : Ctx
  next_question : Option String
  completion_status : CompletionInfo
deriving DecidableEq, Repr

/-- Python `str()` of a stored context value, as used by the f-string that
builds the RAG query. -/
def pyStr : Value → String
  | Value.vNull => "None"
  | Value.vBool true => "True"
  | Value.vBool false => "False"
  | Value.vInt n => toString n
  | Value.vStr s => s

/-- `str(updated_context.get(key, default))`. -/
def ctxGetStr (context : Ctx) (key default : String) : String :=
  match alookup context key with
  | some v => pyStr v
  | none => default

/-- The contextual RAG query f-string of the sufficient-information branch of
`chat_endpoint`. -/
def contextQuery (user_intent : String) (updated_context : Ctx) (user_message : String) : String :=
  "\n            Пользователь с намерением \x27" ++ user_intent
  ++ "\x27 имеет следующую ситуацию:\n            - Сумма долга: "
  ++ ctxGetStr updated_context "debtAmount" "не указана"
  ++ "\n            - Просрочка более 12 месяцев: "
  ++ ctxGetStr updated_context "hasOverdue12Months" "не указана"
  ++ "\n            - Ежемесячный доход: "
  ++ ctxGetStr updated_context "monthlyIncome" "не указан"
  ++ "\n            - Тип занятости: "
  ++ ctxGetStr updated_context "employmentType" "не указан"
  ++ "\n            - Недвижимость: "
  ++ ctxGetStr updated_context "hasProperty" "не указана"
  ++ "\n            - Автомобиль: "
  ++ ctxGetStr updated_context "hasCar" "не указан"
  ++ "\n            - Залоговое имущество: "
  ++ ctxGetStr updated_context "hasCollateral" "не указано"
  ++ "\n            \n            Исходный вопрос: " ++ user_message ++ "\n            "

/-- The fixed reply of the exhausted-catalog ("no question left but still
insufficient") branch of `chat_endpoint`. -/
def no_question_fallback : String :=
  "Спасибо за предоставленную информацию! Позвольте мне проанализировать вашу ситуацию..."

/-- The fixed apology of the `except` clause of `chat_endpoint`. -/
def error_apology : String :=
  "Извините, произошла ошибка при обработке вашего сообщения. Попробуйте еще раз."

/-- The `try` body of `chat_endpoint` in `simple_api.py` (steps 1-4 of one
turn).  `rag` is `process_query`, `greet` is
`dialogue_generator.generate_greeting`, `trans` is
`dialogue_generator.generate_transition`; `extraction_result` is the dict the
external extractor returned for this message. -/
def chat_body (rag : String → String) (greet : String → String → String)
    (trans : String → List (String × Value) → String → String)
    (req : ChatRequest) (extraction_result : ExtractionResult) : ChatResponse :=
  let user_message := req.message
  let existing_context := req.context
  let session_state := req.session_state
  let updated_context1 := merge_context existing_context extraction_result
  let user_intent := extraction_result.intent.getD "eligibility_check"
  let updated_context := ctxSet updated_context1 "userIntent" (Value.vStr user_intent)
  let completion_status := analyze_completion_status updated_context user_intent
  if session_state == "answered" && is_followup_question user_message then
    { response := (handle_followup_question user_message updated_context).1
      session_state := "offering_product"
      context_updates := updated_context
      next_question := none
      completion_status := CompletionInfo.offeringProducts }
  else if completion_status.has_sufficient_info then
    { response := rag (contextQuery user_intent updated_context user_message)
      session_state := "answered"
      context_updates := updated_context
      next_question := none
      completion_status := CompletionInfo.analysis completion_status }
  else
    match get_next_question updated_context user_intent with
    | some next_question_data =>
      { response :=
          if should_use_greeting session_state existing_context then
            greet user_message next_question_data.question
          else
            trans user_message
              (extraction_result.extracted_data.filter (fun p => !(p.2 == Value.vNull)))
              next_question_data.question
        session_state := "collecting_info"
        context_updates := updated_context
        next_question := some next_question_data.question
        completion_status := CompletionInfo.analysis completion_status }
    | none =>
      { response := no_question_fallback
        session_state := "answered"
        context_updates := updated_context
        next_question := none
        completion_status := CompletionInfo.analysis completion_status }

/-- The `except Exception` clause of `chat_endpoint` (lines 161-168 of
`simple_api.py`). -/
def chat_endpoint_onError (e : String) : ChatResponse :=
  { response := error_apology
    session_state := "initial"
    context_updates := []
    next_question := none
    completion_status := CompletionInfo.errorInfo e }

/-- `chat_endpoint` with its `try`/`except`: `exn = some e` embeds a turn in
which an unhandled exception `e` was raised inside steps 1-4 (e.g. by a
collaborator call), `exn = none` a normal turn. -/
def chat_endpoint (rag : String → String) (greet : String → String → String)
    (trans : String → List (String × Value) → String → String)
    (req : ChatRequest) (extraction_result : ExtractionResult)
    (exn : Option String) : ChatResponse :=
  match exn with
  | some e => chat_endpoint_onError e
  | none => chat_body rag greet trans req extraction_result

/-- Modelled from the spec: the Answer Composer classification of spec section
4.6 is not present in the files under `src/` (no revision there computes it);
the spec defines `limit = 1600 × monthly_calculation_index` and classifies the
case "out-of-court" when `debt_amount ≤ limit`, else "judicial", with exact
integer arithmetic. -/
def classification (debt_amount monthly_calculation_index : Nat) : String :=
  if debt_amount ≤ 1600 * monthly_calculation_index then "out-of-court" else "judicial"

theorem alookup_nil {β : Type} (k : String) : alookup ([] : List (String × β)) k = none := rfl

theorem alookup_cons {β : Type} (p : String × β) (rest : List (String × β)) (k : String) :
    alookup (p :: rest) k = if p.1 = k then some p.2 else alookup rest k := rfl

theorem ctxSet_cons (p : String × Value) (rest : Ctx) (k : String) (v : Value) :
    ctxSet (p :: rest) k v = if p.1 = k then (k, v) :: rest else p :: ctxSet rest k v := rfl

theorem ctxRemove_cons (p : String × Value) (rest : Ctx) (k : String) :
    ctxRemove (p :: rest) k = if p.1 = k then ctxRemove rest k else p :: ctxRemove rest k := rfl

theorem alookup_ctxSet_self (c : Ctx) (k : String) (v : Value) :
    alookup (ctxSet c k v) k = some v := by
  induction c with
  | nil => simp [ctxSet, alookup]
  | cons p rest ih =>
    rw [ctxSet_cons]
    by_cases h : p.1 = k
    · rw [if_pos h, alookup_cons, if_pos rfl]
    · rw [if_neg h, alookup_cons, if_neg h, ih]

theorem alookup_ctxSet_ne (c : Ctx) (k k' : String) (v : Value) (h : k' ≠ k) :
    alookup (ctxSet c k v) k' = alookup c k' := by
  have hkk : ¬ (k = k') := fun hh => h hh.symm
  induction c with
  | nil => rw [show ctxSet [] k v = [(k, v)] from rfl, alookup_cons, if_neg hkk, alookup_nil]
  | cons p rest ih =>
    rw [ctxSet_cons]
    by_cases hp : p.1 = k
    · rw [if_pos hp, alookup_cons, alookup_cons, if_neg hkk,
        if_neg (fun hh => hkk (hp.symm.trans hh))]
    · rw [if_neg hp, alookup_cons, alookup_cons, ih]

theorem ctxSet_self_eq (c : Ctx) (k : String) (v : Value)
    (h : alookup c k = some v) : ctxSet c k v = c := by
  induction c with
  | nil => rw [alookup_nil] at h; cases h
  | cons p rest ih =>
    rw [alookup_cons] at h
    rw [ctxSet_cons]
    by_cases hp : p.1 = k
    · rw [if_pos hp]
      rw [if_pos hp] at h
      injection h with h2
      rw [← hp, ← h2]
    · rw [if_neg hp]
      rw [if_neg hp] at h
      rw [ih h]

theorem alookup_ctxRemove_self (c : Ctx) (k : String) :
    alookup (ctxRemove c k) k = none := by
  induction c with
  | nil => rfl
  | cons p rest ih =>
    rw [ctxRemove_cons]
    by_cases hp : p.1 = k
    · rw [if_pos hp, ih]
    · rw [if_neg hp, alookup_cons, if_neg hp, ih]

theorem alookup_eq_none_of_not_mem {β : Type} (l : List (String × β)) (k : String)
    (h : k ∉ l.map Prod.fst) : alookup l k = none := by
  induction l with
  | nil => rfl
  | cons p rest ih =>
    simp only [List.map_cons, List.mem_cons, not_or] at h
    have h1 : ¬ (p.1 = k) := fun hh => h.1 hh.symm
    rw [alookup_cons, if_neg h1, ih h.2]

theorem not_mem_of_alookup_eq_none {β : Type} (l : List (String × β)) (k : String)
    (h : alookup l k = none) : k ∉ l.map Prod.fst := by
  induction l with
  | nil => simp
  | cons p rest ih =>
    rw [alookup_cons] at h
    by_cases hp : p.1 = k
    · rw [if_pos hp] at h; cases h
    · rw [if_neg hp] at h
      simp only [List.map_cons, List.mem_cons, not_or]
      exact ⟨fun hh => hp hh.symm, ih h⟩

theorem alookup_of_mem {β : Type} (l : List (String × β)) (p : String × β)
    (hnd : (l.map Prod.fst).Nodup) (hmem : p ∈ l) : alookup l p.1 = some p.2 := by
  induction l with
  | nil => cases hmem
  | cons q rest ih =>
    simp only [List.map_cons, List.nodup_cons] at hnd
    rcases List.mem_cons.mp hmem with h | h
    · subst h; rw [alookup_cons, if_pos rfl]
    · have hq : ¬ (q.1 = p.1) := by
        intro he
        exact hnd.1 (he ▸ List.mem_map_of_mem Prod.fst h)
      rw [alookup_cons, if_neg hq, ih hnd.2 h]

theorem foldl_mergeStep_not_mem (conf : List (String × ℚ)) (ext : List (String × Value))
    (C : Ctx) (k : String) (h : k ∉ ext.map Prod.fst) :
    alookup (ext.foldl (mergeStep conf) C) k = alookup C k := by
  induction ext generalizing C with
  | nil => rfl
  | cons kv rest ih =>
    simp only [List.map_cons, List.mem_cons, not_or] at h
    rw [List.foldl_cons, ih _ h.2]
    unfold mergeStep
    split
    · split
      · exact alookup_ctxSet_ne C kv.1 k kv.2 h.1
      · rfl
    · rfl

theorem foldl_mergeStep_supplied (conf : List (String × ℚ)) (ext : List (String × Value))
    (C : Ctx) (k : String) (v : Value)
    (hnd : (ext.map Prod.fst).Nodup) (hv : alookup ext k = some v) :
    alookup (ext.foldl (mergeStep conf) C) k =
      if v ≠ Value.vNull ∧ ((alookup conf k).getD (mkRat 8 10) > mkRat 5 10 ∨ alookup C k = none)
      then some v else alookup C k := by
  induction ext generalizing C with
  | nil => rw [alookup_nil] at hv; cases hv
  | cons kv rest ih =>
    simp only [List.map_cons, List.nodup_cons] at hnd
    rw [alookup_cons] at hv
    by_cases hk : kv.1 = k
    · rw [if_pos hk] at hv
      injection hv with hv2
      rw [List.foldl_cons, foldl_mergeStep_not_mem conf rest _ k (hk ▸ hnd.1)]
      unfold mergeStep
      rw [hk, hv2]
      by_cases hnull : v ≠ Value.vNull
      · rw [if_pos hnull]
        by_cases hcond : (alookup conf k).getD (mkRat 8 10) > mkRat 5 10 ∨ alookup C k = none
        · rw [if_pos hcond, if_pos ⟨hnull, hcond⟩, alookup_ctxSet_self]
        · rw [if_neg hcond, if_neg (fun hc => hcond hc.2)]
      · rw [if_neg hnull, if_neg (fun hc => hnull hc.1)]
    · rw [if_neg hk] at hv
      rw [List.foldl_cons]
      have hstep : alookup (mergeStep conf C kv) k = alookup C k := by
        unfold mergeStep
        split
        · split
          · exact alookup_ctxSet_ne C kv.1 k kv.2 (fun he => hk he.symm)
          · rfl
        · rfl
      rw [ih _ hnd.2 hv, hstep]

theorem merge_context_lookup_not_supplied (C : Ctx) (E : ExtractionResult) (k : String)
    (h : alookup E.extracted_data k = none) :
    alookup (merge_context C E) k = alookup C k :=
  foldl_mergeStep_not_mem E.confidence E.extracted_data C k
    (not_mem_of_alookup_eq_none E.extracted_data k h)

theorem merge_context_lookup_supplied (C : Ctx) (E : ExtractionResult) (k : String) (v : Value)
    (hnd : (E.extracted_data.map Prod.fst).Nodup)
    (hv : alookup E.extracted_data k = some v) :
    alookup (merge_context C E) k =
      if v ≠ Value.vNull ∧ (conf_of E k > mkRat 5 10 ∨ alookup C k = none)
      then some v else alookup C k :=
  foldl_mergeStep_supplied E.confidence E.extracted_data C k v hnd hv

/-- C1, counterexample to the claim as stated: merging an extraction that
supplies `debtAmount` but records NO confidence for it changes the field even
though it was present (non-null) in the context — the loop substitutes the
default confidence 0.8, so a change can happen with no recorded confidence
above 0.5 and the field not previously absent. -/
theorem merge_monotonicity_cex :
    alookup (merge_context [("debtAmount", Value.vInt 1)]
        (ExtractionResult.mk [("debtAmount", Value.vInt 2)] [] none)) "debtAmount"
      = some (Value.vInt 2) ∧
    alookup [("debtAmount", Value.vInt 1)] "debtAmount" = some (Value.vInt 1) ∧
    alookup (ExtractionResult.mk [("debtAmount", Value.vInt 2)] [] none).confidence
      "debtAmount" = none := by
  decide

/-- C1 (amended): for every context `C` and extraction result `E` (whose field
keys are unique, as in a Python dict), `merge_context(C, E)` changes a field
only if `E` supplies a non-null value for it and either the effective
confidence for that field — the recorded one, defaulting to 0.8 when none is
recorded — exceeds 0.5 or the field was previously absent in `C`; every field
for which `E` supplies no value (or a null value) keeps its value from `C`. -/
theorem merge_monotonicity_amended (C : Ctx) (E : ExtractionResult) (k : String)
    (hnd : (E.extracted_data.map Prod.fst).Nodup) :
    (alookup (merge_context C E) k ≠ alookup C k →
      ∃ v, alookup E.extracted_data k = some v ∧ v ≠ Value.vNull ∧
        (conf_of E k > mkRat 5 10 ∨ alookup C k = none)) ∧
    ((alookup E.extracted_data k = none ∨ alookup E.extracted_data k = some Value.vNull) →
      alookup (merge_context C E) k = alookup C k) := by
  constructor
  · intro hch
    cases hv : alookup E.extracted_data k with
    | none => exact absurd (merge_context_lookup_not_supplied C E k hv) hch
    | some v =>
      rw [merge_context_lookup_supplied C E k v hnd hv] at hch
      by_cases hc : v ≠ Value.vNull ∧ (conf_of E k > mkRat 5 10 ∨ alookup C k = none)
      · exact ⟨v, rfl, hc.1, hc.2⟩
      · rw [if_neg hc] at hch
        exact absurd rfl hch
  · intro hno
    rcases hno with hn | hnull
    · exact merge_context_lookup_not_supplied C E k hn
    · rw [merge_context_lookup_supplied C E k Value.vNull hnd hnull, if_neg]
      intro hc
      exact hc.1 rfl

theorem merge_monotonicity_amended_witness :
    alookup (merge_context [("a", Value.vInt 7)]
        (ExtractionResult.mk [("b", Value.vInt 1)] [] none)) "a"
      = alookup [("a", Value.vInt 7)] "a" :=
  (merge_monotonicity_amended [("a", Value.vInt 7)]
      (ExtractionResult.mk [("b", Value.vInt 1)] [] none) "a" (by decide)).2
    (Or.inl (by decide))

/-- C3, counterexample to the claim as stated: `debtAmount` is first set with
confidence 0.9 (above the threshold), and a later `merge_context` with a
strictly lower confidence 0.6 still replaces its value, because the code only
compares the incoming confidence with the fixed 0.5 threshold and never tracks
the confidence with which a field was originally set. -/
theorem no_downgrade_cex :
    alookup (merge_context []
        (ExtractionResult.mk [("debtAmount", Value.vInt 1)]
          [("debtAmount", mkRat 9 10)] none)) "debtAmount" = some (Value.vInt 1) ∧
    mkRat 9 10 > mkRat 5 10 ∧
    mkRat 6 10 < mkRat 9 10 ∧
    alookup (merge_context
        (merge_context []
          (ExtractionResult.mk [("debtAmount", Value.vInt 1)]
            [("debtAmount", mkRat 9 10)] none))
        (ExtractionResult.mk [("debtAmount", Value.vInt 2)]
          [("debtAmount", mkRat 6 10)] none)) "debtAmount" = some (Value.vInt 2) := by
  decide

/-- C3 (amended): once a field is present in the context, a later
`merge_context` call replaces its value only when the later extraction
supplies a non-null value for it whose effective confidence (recorded,
defaulting to 0.8) exceeds the fixed threshold 0.5; the confidence with which
the field was originally set is not tracked, so any update above 0.5 replaces
it, including updates of lower confidence than the original. -/
theorem no_downgrade_amended (C : Ctx) (E : ExtractionResult) (k : String)
    (hnd : (E.extracted_data.map Prod.fst).Nodup)
    (hset : alookup C k ≠ none)
    (hch : alookup (merge_context C E) k ≠ alookup C k) :
    conf_of E k > mkRat 5 10 ∧
    ∃ v, alookup E.extracted_data k = some v ∧ v ≠ Value.vNull ∧
      alookup (merge_context C E) k = some v := by
  cases hv : alookup E.extracted_data k with
  | none => exact absurd (merge_context_lookup_not_supplied C E k hv) hch
  | some v =>
    have hsup := merge_context_lookup_supplied C E k v hnd hv
    by_cases hc : v ≠ Value.vNull ∧ (conf_of E k > mkRat 5 10 ∨ alookup C k = none)
    · rcases hc.2 with hconf | habs
      · exact ⟨hconf, v, rfl, hc.1, by rw [hsup, if_pos hc]⟩
      · exact absurd habs hset
    · rw [hsup, if_neg hc] at hch
      exact absurd rfl hch

theorem no_downgrade_amended_witness :
    conf_of (ExtractionResult.mk [("a", Value.vInt 2)] [("a", mkRat 6 10)] none) "a"
      > mkRat 5 10 :=
  (no_downgrade_amended [("a", Value.vInt 1)]
      (ExtractionResult.mk [("a", Value.vInt 2)] [("a", mkRat 6 10)] none) "a"
      (by decide) (by decide) (by decide)).1

theorem foldl_mergeStep_id (conf : List (String × ℚ)) (ext : List (String × Value)) (m : Ctx)
    (h : ∀ kv ∈ ext, mergeStep conf m kv = m) :
    ext.foldl (mergeStep conf) m = m := by
  induction ext with
  | nil => rfl
  | cons kv rest ih =>
    rw [List.foldl_cons, h kv (List.mem_cons_self kv rest)]
    exact ih (fun p hp => h p (List.mem_cons_of_mem kv hp))

/-- C7: merging the same extraction result a second time (with the same
confidences, and unique field keys as in a Python dict) leaves the
already-merged context unchanged: `merge(merge(C, E), E) = merge(C, E)`. -/
theorem merge_idempotent (C : Ctx) (E : ExtractionResult)
    (hnd : (E.extracted_data.map Prod.fst).Nodup) :
    merge_context (merge_context C E) E = merge_context C E := by
  have key : ∀ kv ∈ E.extracted_data,
      mergeStep E.confidence (merge_context C E) kv = merge_context C E := by
    intro kv hkv
    by_cases hnull : kv.2 ≠ Value.vNull
    · have hv : alookup E.extracted_data kv.1 = some kv.2 := alookup_of_mem _ kv hnd hkv
      have hm := merge_context_lookup_supplied C E kv.1 kv.2 hnd hv
      unfold mergeStep
      rw [if_pos hnull]
      by_cases hconf : conf_of E kv.1 > mkRat 5 10
      · have hmk : alookup (merge_context C E) kv.1 = some kv.2 := by
          rw [hm, if_pos ⟨hnull, Or.inl hconf⟩]
        rw [if_pos (Or.inl hconf :
          (alookup E.confidence kv.1).getD (mkRat 8 10) > mkRat 5 10 ∨
            alookup (merge_context C E) kv.1 = none)]
        exact ctxSet_self_eq _ kv.1 kv.2 hmk
      · have hne : alookup (merge_context C E) kv.1 ≠ none := by
          rw [hm]
          by_cases hC : alookup C kv.1 = none
          · rw [if_pos ⟨hnull, Or.inr hC⟩]
            exact Option.some_ne_none kv.2
          · by_cases hcc : kv.2 ≠ Value.vNull ∧
                (conf_of E kv.1 > mkRat 5 10 ∨ alookup C kv.1 = none)
            · rw [if_pos hcc]
              exact Option.some_ne_none kv.2
            · rw [if_neg hcc]
              exact hC
        rw [if_neg (fun hc => hc.elim hconf hne :
          ¬((alookup E.confidence kv.1).getD (mkRat 8 10) > mkRat 5 10 ∨
            alookup (merge_context C E) kv.1 = none))]
    · unfold mergeStep
      rw [if_neg hnull]
  exact foldl_mergeStep_id E.confidence E.extracted_data (merge_context C E) key

theorem merge_idempotent_witness :
    merge_context
        (merge_context [("debtAmount", Value.vInt 3)]
          (ExtractionResult.mk [("monthlyIncome", Value.vInt 200000)]
            [("monthlyIncome", mkRat 4 10)] none))
        (ExtractionResult.mk [("monthlyIncome", Value.vInt 200000)]
          [("monthlyIncome", mkRat 4 10)] none)
      = merge_context [("debtAmount", Value.vInt 3)]
          (ExtractionResult.mk [("monthlyIncome", Value.vInt 200000)]
            [("monthlyIncome", mkRat 4 10)] none) :=
  merge_idempotent [("debtAmount", Value.vInt 3)]
    (ExtractionResult.mk [("monthlyIncome", Value.vInt 200000)]
      [("monthlyIncome", mkRat 4 10)] none) (by decide)

theorem is_missing_eq_false_iff (C : Ctx) (f : String) :
    is_missing C f = false ↔ ∃ v, alookup C f = some v ∧ v ≠ Value.vNull := by
  unfold is_missing
  cases h : alookup C f with
  | none => simp
  | some v => simp

/-- C2: `has_sufficient_info(C, intent)` is true iff every field of the
intent's required set is present in `C` with a non-null value; and removing
(or nulling) any single required field makes `has_sufficient_info` false. -/
theorem sufficiency_exact (C : Ctx) (intent : String) :
    (has_sufficient_info C intent = true ↔
      ∀ f ∈ required_fields intent, ∃ v, alookup C f = some v ∧ v ≠ Value.vNull) ∧
    (∀ f ∈ required_fields intent,
      has_sufficient_info (ctxRemove C f) intent = false ∧
      has_sufficient_info (ctxSet C f Value.vNull) intent = false) := by
  constructor
  · constructor
    · intro h f hf
      have hlen : (List.filter (fun field => is_missing C field)
          (required_fields intent)).length = 0 := by
        simpa [has_sufficient_info, get_missing_critical_fields] using h
      have hnone := List.filter_eq_nil_iff.mp (List.length_eq_zero.mp hlen) f hf
      exact (is_missing_eq_false_iff C f).mp (Bool.eq_false_iff.mpr hnone)
    · intro h
      have hnil : List.filter (fun field => is_missing C field)
          (required_fields intent) = [] :=
        List.filter_eq_nil_iff.mpr (fun f hf => by
          have hfalse := (is_missing_eq_false_iff C f).mpr (h f hf)
          simp [hfalse])
      simp [has_sufficient_info, get_missing_critical_fields, hnil]
  · intro f hf
    constructor
    · have hmem : f ∈ List.filter (fun field => is_missing (ctxRemove C f) field)
          (required_fields intent) :=
        List.mem_filter.mpr ⟨hf, by simp [is_missing, alookup_ctxRemove_self]⟩
      have hne := List.ne_nil_of_mem hmem
      simp only [has_sufficient_info, get_missing_critical_fields, beq_eq_false_iff_ne, ne_eq,
        List.length_eq_zero]
      exact hne
    · have hmem : f ∈ List.filter (fun field => is_missing (ctxSet C f Value.vNull) field)
          (required_fields intent) :=
        List.mem_filter.mpr ⟨hf, by simp [is_missing, alookup_ctxSet_self]⟩
      have hne := List.ne_nil_of_mem hmem
      simp only [has_sufficient_info, get_missing_critical_fields, beq_eq_false_iff_ne, ne_eq,
        List.length_eq_zero]
      exact hne

theorem sufficiency_exact_witness :
    has_sufficient_info
        (ctxRemove [("debtAmount", Value.vInt 5000000),
          ("hasOverdue12Months", Value.vBool true),
          ("monthlyIncome", Value.vInt 200000)] "debtAmount") "eligibility_check" = false ∧
    has_sufficient_info
        (ctxSet [("debtAmount", Value.vInt 5000000),
          ("hasOverdue12Months", Value.vBool true),
          ("monthlyIncome", Value.vInt 200000)] "debtAmount" Value.vNull)
        "eligibility_check" = false :=
  (sufficiency_exact [("debtAmount", Value.vInt 5000000),
      ("hasOverdue12Months", Value.vBool true),
      ("monthlyIncome", Value.vInt 200000)] "eligibility_check").2 "debtAmount" (by decide)

theorem better_question_not_applicable (mf : List String) (intent : String)
    (acc : Option QuestionTemplate × Option Nat) (kv : String × QuestionTemplate)
    (hna : ¬(kv.2.required_for = [] ∨ intent ∈ kv.2.required_for)) :
    better_question mf intent acc kv = acc :=
  if_neg (fun h => hna h.2.1)

theorem foldl_better_question_id (mf : List String) (intent : String)
    (l : List (String × QuestionTemplate)) (acc : Option QuestionTemplate × Option Nat)
    (hna : ∀ kv ∈ l, ¬(kv.2.required_for = [] ∨ intent ∈ kv.2.required_for)) :
    l.foldl (better_question mf intent) acc = acc := by
  induction l with
  | nil => rfl
  | cons kv rest ih =>
    rw [List.foldl_cons,
      better_question_not_applicable mf intent acc kv (hna kv (List.mem_cons_self kv rest))]
    exact ih (fun p hp => hna p (List.mem_cons_of_mem kv hp))

theorem foldl_better_question_stuck (mf : List String) (intent : String)
    (l : List (String × QuestionTemplate)) (q : QuestionTemplate) (b : Nat)
    (h : ∀ kv ∈ l, ¬ lt_best kv.2.priority (some b)) :
    l.foldl (better_question mf intent) (some q, some b) = (some q, some b) := by
  induction l with
  | nil => rfl
  | cons kv rest ih =>
    rw [List.foldl_cons,
      show better_question mf intent (some q, some b) kv = (some q, some b) from
        if_neg (fun hc => h kv (List.mem_cons_self kv rest) hc.2.2)]
    exact ih (fun p hp => h p (List.mem_cons_of_mem kv hp))

theorem get_next_question_no_applicable (C : Ctx) (intent : String)
    (hna : ∀ kv ∈ question_templates, ¬(kv.2.required_for = [] ∨ intent ∈ kv.2.required_for)) :
    get_next_question C intent = none := by
  show (if (get_missing_critical_fields C intent).isEmpty = true then none
    else (question_templates.foldl
      (better_question (get_missing_critical_fields C intent) intent) (none, none)).1) = none
  by_cases hmf : (get_missing_critical_fields C intent).isEmpty = true
  · rw [if_pos hmf]
  · rw [if_neg hmf,
      foldl_better_question_id (get_missing_critical_fields C intent) intent
        question_templates (none, none) hna]

/-- C6: `get_next_question` is a function of `(context, intent)` — equal
inputs give equal outputs — and whenever the priority-1 field `debtAmount` and
the priority-2 field `hasOverdue12Months` are both missing and both of their
templates apply to the intent, the priority-1 question (`debt_amount`) is
returned. -/
theorem prioritizer_min_priority (C : Ctx) (intent : String)
    (h1 : "debtAmount" ∈ get_missing_critical_fields C intent)
    (h2 : "hasOverdue12Months" ∈ get_missing_critical_fields C intent)
    (ha : intent ∈ debt_amount_template.required_for)
    (hb : intent ∈ overdue_check_template.required_for) :
    (∀ C2 intent2, C2 = C → intent2 = intent →
      get_next_question C2 intent2 = get_next_question C intent) ∧
    get_next_question C intent = some debt_amount_template := by
  refine ⟨fun C2 i2 hC hi => by rw [hC, hi], ?_⟩
  have hne : ¬ (get_missing_critical_fields C intent).isEmpty = true := by
    rw [List.isEmpty_iff]
    exact List.ne_nil_of_mem h1
  show (if (get_missing_critical_fields C intent).isEmpty = true then none
    else (question_templates.foldl
      (better_question (get_missing_critical_fields C intent) intent) (none, none)).1)
    = some debt_amount_template
  rw [if_neg hne, question_templates, List.foldl_cons,
    show better_question (get_missing_critical_fields C intent) intent (none, none)
        ("debt_amount", debt_amount_template) = (some debt_amount_template, some 1) from
      if_pos ⟨h1, Or.inr ha, trivial⟩,
    foldl_better_question_stuck (get_missing_critical_fields C intent) intent
      [("overdue_check", overdue_check_template),
       ("monthly_income", monthly_income_template),
       ("employment_type", employment_type_template),
       ("property_check", property_check_template),
       ("car_check", car_check_template),
       ("collateral_check", collateral_check_template),
       ("creditors_count", creditors_count_template)]
      debt_amount_template 1 (by decide)]

theorem prioritizer_min_priority_witness :
    get_next_question [] "eligibility_check" = some debt_amount_template :=
  (prioritizer_min_priority [] "eligibility_check"
    (by decide) (by decide) (by decide) (by decide)).2

theorem analyze_has_sufficient (C : Ctx) (i : String) :
    (analyze_completion_status C i).has_sufficient_info = has_sufficient_info C i := rfl

theorem is_missing_ctxSet_ne (C : Ctx) (k f : String) (v : Value) (h : f ≠ k) :
    is_missing (ctxSet C k v) f = is_missing C f := by
  unfold is_missing
  rw [alookup_ctxSet_ne C k f v h]

theorem is_missing_merge_of_false (C : Ctx) (E : ExtractionResult) (f : String)
    (hnd : (E.extracted_data.map Prod.fst).Nodup)
    (h : is_missing C f = false) : is_missing (merge_context C E) f = false := by
  rcases (is_missing_eq_false_iff C f).mp h with ⟨v, hv, hvn⟩
  cases he : alookup E.extracted_data f with
  | none =>
    refine (is_missing_eq_false_iff _ f).mpr ⟨v, ?_, hvn⟩
    rw [merge_context_lookup_not_supplied C E f he, hv]
  | some w =>
    have hs := merge_context_lookup_supplied C E f w hnd he
    by_cases hc : w ≠ Value.vNull ∧ (conf_of E f > mkRat 5 10 ∨ alookup C f = none)
    · exact (is_missing_eq_false_iff _ f).mpr ⟨w, by rw [hs, if_pos hc], hc.1⟩
    · refine (is_missing_eq_false_iff _ f).mpr ⟨v, ?_, hvn⟩
      rw [hs, if_neg hc, hv]

theorem is_missing_merge_supplied_new (C : Ctx) (E : ExtractionResult) (f : String) (w : Value)
    (hnd : (E.extracted_data.map Prod.fst).Nodup)
    (hC : alookup C f = none) (he : alookup E.extracted_data f = some w)
    (hw : w ≠ Value.vNull) : is_missing (merge_context C E) f = false := by
  refine (is_missing_eq_false_iff _ f).mpr ⟨w, ?_, hw⟩
  rw [merge_context_lookup_supplied C E f w hnd he, if_pos ⟨hw, Or.inr hC⟩]

theorem chat_body_sufficient (rag : String → String) (greet : String → String → String)
    (trans : String → List (String × Value) → String → String)
    (req : ChatRequest) (E : ExtractionResult)
    (hguard : (req.session_state == "answered" && is_followup_question req.message) = false)
    (hsuff : has_sufficient_info
      (ctxSet (merge_context req.context E) "userIntent"
        (Value.vStr (E.intent.getD "eligibility_check")))
      (E.intent.getD "eligibility_check") = true) :
    chat_body rag greet trans req E =
      { response := rag (contextQuery (E.intent.getD "eligibility_check")
          (ctxSet (merge_context req.context E) "userIntent"
            (Value.vStr (E.intent.getD "eligibility_check")))
          req.message)
        session_state := "answered"
        context_updates := ctxSet (merge_context req.context E) "userIntent"
          (Value.vStr (E.intent.getD "eligibility_check"))
        next_question := none
        completion_status := CompletionInfo.analysis (analyze_completion_status
          (ctxSet (merge_context req.context E) "userIntent"
            (Value.vStr (E.intent.getD "eligibility_check")))
          (E.intent.getD "eligibility_check")) } := by
  unfold chat_body
  simp only []
  rw [hguard]
  rw [if_neg Bool.false_ne_true]
  rw [if_pos ((analyze_has_sufficient _ _).trans hsuff)]

theorem chat_body_insufficient_none (rag : String → String)
    (greet : String → String → String)
    (trans : String → List (String × Value) → String → String)
    (req : ChatRequest) (E : ExtractionResult)
    (hguard : (req.session_state == "answered" && is_followup_question req.message) = false)
    (hsuff : has_sufficient_info
      (ctxSet (merge_context req.context E) "userIntent"
        (Value.vStr (E.intent.getD "eligibility_check")))
      (E.intent.getD "eligibility_check") = false)
    (hgnq : get_next_question
      (ctxSet (merge_context req.context E) "userIntent"
        (Value.vStr (E.intent.getD "eligibility_check")))
      (E.intent.getD "eligibility_check") = none) :
    chat_body rag greet trans req E =
      { response := no_question_fallback
        session_state := "answered"
        context_updates := ctxSet (merge_context req.context E) "userIntent"
          (Value.vStr (E.intent.getD "eligibility_check"))
        next_question := none
        completion_status := CompletionInfo.analysis (analyze_completion_status
          (ctxSet (merge_context req.context E) "userIntent"
            (Value.vStr (E.intent.getD "eligibility_check")))
          (E.intent.getD "eligibility_check")) } := by
  unfold chat_body
  simp only []
  rw [hguard]
  rw [if_neg Bool.false_ne_true]
  rw [if_neg (show ¬ _ = true by rw [analyze_has_sufficient, hsuff]; exact Bool.false_ne_true)]
  rw [hgnq]

/-- C4, counterexample to the claim as stated: an exception raised during the
per-turn processing is caught, but the resulting session state is `"initial"`,
not `"error"` (lines 161-168 of `simple_api.py`). -/
theorem error_state_cex :
    (chat_endpoint (fun _ => "") (fun _ _ => "") (fun _ _ _ => "")
        (ChatRequest.mk "сообщение" [] "initial")
        (ExtractionResult.mk [] [] none) (some "boom")).session_state = "initial" ∧
    "initial" ≠ "error" := by
  decide

/-- C4 (amended): for every request, if an unhandled exception is raised
inside the per-turn processing of `simple_api.py`'s `chat_endpoint`, the
controller catches it and returns a well-formed response whose session state
is `initial` (not `error`), whose reply is the fixed apology message, and
whose context update is empty; that handler never re-raises.  (The older
`api_server.py` variant instead re-raises as an HTTP 500 error.) -/
theorem error_state_amended (e : String) (rag : String → String)
    (greet : String → String → String)
    (trans : String → List (String × Value) → String → String)
    (req : ChatRequest) (E : ExtractionResult) :
    (chat_endpoint rag greet trans req E (some e)).session_state = "initial" ∧
    (chat_endpoint rag greet trans req E (some e)).response = error_apology ∧
    (chat_endpoint rag greet trans req E (some e)).context_updates = [] ∧
    (chat_endpoint rag greet trans req E (some e)).next_question = none :=
  ⟨rfl, rfl, rfl, rfl⟩

/-- C8 (spec-modelled): `limit = 1600 × monthly_calculation_index`; with the
index 3692 the limit is 5,907,200, debt 5,000,000 is classified out-of-court
and debt 6,000,000 judicial. -/
theorem classification_threshold :
    1600 * 3692 = 5907200 ∧
    classification 5000000 3692 = "out-of-court" ∧
    classification 6000000 3692 = "judicial" := by
  decide

/-- C5, counterexample to the claim as stated: with `debtAmount` and
`hasOverdue12Months` already known, a message supplying income, and intent
`eligibility_check`, the turn does NOT return the employment-type question:
`employmentType` is not in the required set of `eligibility_check`, so the
merged context is already sufficient and the turn returns a final answer with
state `answered` and no next question, while `employmentType` is still absent
from the updated context. -/
theorem employment_followup_cex :
    (chat_endpoint (fun _ => "RAG") (fun _ _ => "") (fun _ _ _ => "")
        (ChatRequest.mk "зарплата 200 тысяч"
          [("debtAmount", Value.vInt 5000000), ("hasOverdue12Months", Value.vBool true)]
          "collecting_info")
        (ExtractionResult.mk [("monthlyIncome", Value.vInt 200000)]
          [("monthlyIncome", mkRat 9 10)] (some "eligibility_check"))
        none).session_state = "answered" ∧
    (chat_endpoint (fun _ => "RAG") (fun _ _ => "") (fun _ _ _ => "")
        (ChatRequest.mk "зарплата 200 тысяч"
          [("debtAmount", Value.vInt 5000000), ("hasOverdue12Months", Value.vBool true)]
          "collecting_info")
        (ExtractionResult.mk [("monthlyIncome", Value.vInt 200000)]
          [("monthlyIncome", mkRat 9 10)] (some "eligibility_check"))
        none).next_question = none ∧
    alookup (chat_endpoint (fun _ => "RAG") (fun _ _ => "") (fun _ _ _ => "")
        (ChatRequest.mk "зарплата 200 тысяч"
          [("debtAmount", Value.vInt 5000000), ("hasOverdue12Months", Value.vBool true)]
          "collecting_info")
        (ExtractionResult.mk [("monthlyIncome", Value.vInt 200000)]
          [("monthlyIncome", mkRat 9 10)] (some "eligibility_check"))
        none).context_updates "employmentType" = none ∧
    "answered" ≠ "collecting_info" := by
  decide

/-- C5 (amended): for a non-follow-up turn whose arriving state is
`collecting_info`, a context that already contains non-null `debtAmount` and
`hasOverdue12Months`, a message whose extraction supplies a non-null
`monthlyIncome` (previously absent), and intent `eligibility_check`, the turn
returns a final RAG answer with state `answered` and no next question — even
when `employmentType` is still unknown, because `employmentType` is not in the
required-field set of `eligibility_check`. -/
theorem employment_followup_amended (rag : String → String)
    (greet : String → String → String)
    (trans : String → List (String × Value) → String → String)
    (req : ChatRequest) (E : ExtractionResult) (w : Value)
    (hstate : req.session_state = "collecting_info")
    (hintent : E.intent = some "eligibility_check")
    (hnd : (E.extracted_data.map Prod.fst).Nodup)
    (hdebt : is_missing req.context "debtAmount" = false)
    (hover : is_missing req.context "hasOverdue12Months" = false)
    (hinc0 : alookup req.context "monthlyIncome" = none)
    (hincE : alookup E.extracted_data "monthlyIncome" = some w)
    (hw : w ≠ Value.vNull) :
    (chat_endpoint rag greet trans req E none).session_state = "answered" ∧
    (chat_endpoint rag greet trans req E none).next_question = none := by
  have hu1 : is_missing (ctxSet (merge_context req.context E) "userIntent"
      (Value.vStr "eligibility_check")) "debtAmount" = false := by
    rw [is_missing_ctxSet_ne _ _ _ _ (by decide)]
    exact is_missing_merge_of_false req.context E "debtAmount" hnd hdebt
  have hu2 : is_missing (ctxSet (merge_context req.context E) "userIntent"
      (Value.vStr "eligibility_check")) "hasOverdue12Months" = false := by
    rw [is_missing_ctxSet_ne _ _ _ _ (by decide)]
    exact is_missing_merge_of_false req.context E "hasOverdue12Months" hnd hover
  have hu3 : is_missing (ctxSet (merge_context req.context E) "userIntent"
      (Value.vStr "eligibility_check")) "monthlyIncome" = false := by
    rw [is_missing_ctxSet_ne _ _ _ _ (by decide)]
    exact is_missing_merge_supplied_new req.context E "monthlyIncome" w hnd hinc0 hincE hw
  have hfil : List.filter (fun field => is_missing (ctxSet (merge_context req.context E)
      "userIntent" (Value.vStr "eligibility_check")) field)
      ["debtAmount", "hasOverdue12Months", "monthlyIncome"] = [] := by
    simp only [List.filter_cons, List.filter_nil, hu1, hu2, hu3, Bool.false_eq_true, if_false]
  have hsufftrue : has_sufficient_info (ctxSet (merge_context req.context E) "userIntent"
      (Value.vStr "eligibility_check")) "eligibility_check" = true := by
    unfold has_sufficient_info get_missing_critical_fields
    rw [show required_fields "eligibility_check"
      = ["debtAmount", "hasOverdue12Months", "monthlyIncome"] from rfl, hfil]
    rfl
  have hguard : (req.session_state == "answered" && is_followup_question req.message)
      = false := by
    rw [hstate]
    rfl
  have hsuff : has_sufficient_info
      (ctxSet (merge_context req.context E) "userIntent"
        (Value.vStr (E.intent.getD "eligibility_check")))
      (E.intent.getD "eligibility_check") = true := by
    rw [hintent]
    exact hsufftrue
  rw [show chat_endpoint rag greet trans req E none = chat_body rag greet trans req E from rfl,
    chat_body_sufficient rag greet trans req E hguard hsuff]
  exact ⟨rfl, rfl⟩

theorem employment_followup_amended_witness :
    (chat_endpoint (fun _ => "") (fun _ _ => "") (fun _ _ _ => "")
        (ChatRequest.mk "зарплата 200 тысяч"
          [("debtAmount", Value.vInt 5000000), ("hasOverdue12Months", Value.vBool true)]
          "collecting_info")
        (ExtractionResult.mk [("monthlyIncome", Value.vInt 200000)]
          [("monthlyIncome", mkRat 9 10)] (some "eligibility_check"))
        none).session_state = "answered" :=
  (employment_followup_amended (fun _ => "") (fun _ _ => "") (fun _ _ _ => "")
    (ChatRequest.mk "зарплата 200 тысяч"
      [("debtAmount", Value.vInt 5000000), ("hasOverdue12Months", Value.vBool true)]
      "collecting_info")
    (ExtractionResult.mk [("monthlyIncome", Value.vInt 200000)]
      [("monthlyIncome", mkRat 9 10)] (some "eligibility_check"))
    (Value.vInt 200000) rfl rfl (by decide) (by decide) (by decide) (by decide)
    (by decide) (by decide)).1

/-- C9, counterexample to the claim as stated: the controller does NOT always
take the no-question fallback branch for intent `documentation` when
information is insufficient — a turn arriving in state `answered` whose
message matches the follow-up keyword table ("помогите") is diverted to the
`offering_product` branch before sufficiency is ever consulted. -/
theorem no_question_intents_cex :
    has_sufficient_info
      (ctxSet (merge_context [] (ExtractionResult.mk [] [] (some "documentation")))
        "userIntent" (Value.vStr "documentation")) "documentation" = false ∧
    (chat_endpoint (fun _ => "") (fun _ _ => "") (fun _ _ _ => "")
        (ChatRequest.mk "помогите" [] "answered")
        (ExtractionResult.mk [] [] (some "documentation")) none).session_state
      = "offering_product" ∧
    "offering_product" ≠ "answered" := by
  decide

/-- C9 (amended): no question template's `required_for` set contains
`documentation` or `consequences`, so `get_next_question` returns `None` for
these intents on every context, even when their required fields are missing;
and on every non-follow-up turn (one not arriving in state `answered` with a
follow-up message) with such an intent and insufficient information, the
controller takes the no-question fallback branch: fixed best-effort reply,
state `answered`, no next question. -/
theorem no_question_intents_amended (rag : String → String)
    (greet : String → String → String)
    (trans : String → List (String × Value) → String → String)
    (req : ChatRequest) (E : ExtractionResult) (i : String)
    (hguard : (req.session_state == "answered" && is_followup_question req.message) = false)
    (hintent : E.intent = some i)
    (hi : i = "documentation" ∨ i = "consequences")
    (hsuff : has_sufficient_info
      (ctxSet (merge_context req.context E) "userIntent" (Value.vStr i)) i = false) :
    (∀ C : Ctx, get_next_question C "documentation" = none) ∧
    (∀ C : Ctx, get_next_question C "consequences" = none) ∧
    (chat_endpoint rag greet trans req E none).session_state = "answered" ∧
    (chat_endpoint rag greet trans req E none).response = no_question_fallback ∧
    (chat_endpoint rag greet trans req E none).next_question = none := by
  have hdoc : ∀ C : Ctx, get_next_question C "documentation" = none :=
    fun C => get_next_question_no_applicable C "documentation" (by decide)
  have hcons : ∀ C : Ctx, get_next_question C "consequences" = none :=
    fun C => get_next_question_no_applicable C "consequences" (by decide)
  have hgnq0 : get_next_question
      (ctxSet (merge_context req.context E) "userIntent" (Value.vStr i)) i = none := by
    rcases hi with h | h
    · rw [h]
      exact hdoc _
    · rw [h]
      exact hcons _
  have hsuff' : has_sufficient_info
      (ctxSet (merge_context req.context E) "userIntent"
        (Value.vStr (E.intent.getD "eligibility_check")))
      (E.intent.getD "eligibility_check") = false := by
    rw [hintent]
    exact hsuff
  have hgnq' : get_next_question
      (ctxSet (merge_context req.context E) "userIntent"
        (Value.vStr (E.intent.getD "eligibility_check")))
      (E.intent.getD "eligibility_check") = none := by
    rw [hintent]
    exact hgnq0
  refine ⟨hdoc, hcons, ?_, ?_, ?_⟩ <;>
    rw [show chat_endpoint rag greet trans req E none
        = chat_body rag greet trans req E from rfl,
      chat_body_insufficient_none rag greet trans req E hguard hsuff' hgnq']

theorem no_question_intents_amended_witness :
    (chat_endpoint (fun _ => "") (fun _ _ => "") (fun _ _ _ => "")
        (ChatRequest.mk "мне нужны документы" [] "initial")
        (ExtractionResult.mk [] [] (some "documentation")) none).session_state
      = "answered" :=
  (no_question_intents_amended (fun _ => "") (fun _ _ => "") (fun _ _ _ => "")
    (ChatRequest.mk "мне нужны документы" [] "initial")
    (ExtractionResult.mk [] [] (some "documentation")) "documentation"
    (by decide) rfl (Or.inl rfl) (by decide)).2.2.1

/-- C10, counterexample to the claim as stated: a turn whose extracted intent
is `specific_problem` does NOT always produce a final RAG answer with state
`answered` — a turn arriving in state `answered` whose message matches the
follow-up keyword table ("что дальше") is diverted to the `offering_product`
branch before the sufficiency dispatch. -/
theorem specific_problem_cex :
    (chat_endpoint (fun _ => "") (fun _ _ => "") (fun _ _ _ => "")
        (ChatRequest.mk "что дальше" [] "answered")
        (ExtractionResult.mk [] [] (some "specific_problem")) none).session_state
      = "offering_product" ∧
    "offering_product" ≠ "answered" := by
  decide

/-- C10 (amended): `has_sufficient_info(C, "specific_problem")` is true for
every context `C` (its required-field set is empty), so every non-follow-up
turn (one not arriving in state `answered` with a follow-up message) whose
extracted intent is `specific_problem` bypasses question asking and
immediately produces a final RAG answer with state `answered`. -/
theorem specific_problem_amended (rag : String → String)
    (greet : String → String → String)
    (trans : String → List (String × Value) → String → String)
    (req : ChatRequest) (E : ExtractionResult)
    (hguard : (req.session_state == "answered" && is_followup_question req.message) = false)
    (hintent : E.intent = some "specific_problem") :
    (∀ C : Ctx, has_sufficient_info C "specific_problem" = true) ∧
    (chat_endpoint rag greet trans req E none).session_state = "answered" ∧
    (chat_endpoint rag greet trans req E none).next_question = none := by
  have hsuff : has_sufficient_info
      (ctxSet (merge_context req.context E) "userIntent"
        (Value.vStr (E.intent.getD "eligibility_check")))
      (E.intent.getD "eligibility_check") = true := by
    rw [hintent]
    rfl
  refine ⟨fun C => rfl, ?_, ?_⟩ <;>
    rw [show chat_endpoint rag greet trans req E none
        = chat_body rag greet trans req E from rfl,
      chat_body_sufficient rag greet trans req E hguard hsuff]

theorem specific_problem_amended_witness :
    (chat_endpoint (fun _ => "") (fun _ _ => "") (fun _ _ _ => "")
        (ChatRequest.mk "у меня арестовали счет" [] "initial")
        (ExtractionResult.mk [] [] (some "specific_problem")) none).session_state
      = "answered" :=
  (specific_problem_amended (fun _ => "") (fun _ _ => "") (fun _ _ _ => "")
    (ChatRequest.mk "у меня арестовали счет" [] "initial")
    (ExtractionResult.mk [] [] (some "specific_problem"))
    (by decide) rfl).2.1
